import Mathlib

/-
  Shallow embedding of the quiz orchestration core of the VK-Quiz-Bot
  repository (package `vkquizbot`), covering:

  * `handler.py`          — `Handler.members_quiz_answers_handler`
  * `quiz_manager.py`     — `QuizManager.__init__`, `__save_state`,
                            `__question_select`, `__quiz_iteration_init`,
                            `__finish_quiz`, `_save_state_create`,
                            `__end_of_time_handler`, the round-close step of
                            `quiz_mainloop`
  * `user_manager.py`     — `UserManager.kick_user`
  * `bot_core.py`         — `BotCore.finalize`
  * `temp_info.py`        — the `TempInfo` dataclass

  Conventions of the embedding:
  * The concurrent handlers are serialized by a single reentrant lock in the
    source; here each handler invocation is a pure state transition on the
    shared state, which is exactly what the lock guarantees per call.
  * Python string dict keys `str(user_id)` are modelled by the `Nat` user id
    itself (`str` is injective on the ids).
  * Python dicts keep insertion order; `members_scores` is an association
    list updated in place for existing keys and appended for new keys.
  * Messenger / logging calls are external effects without influence on the
    session state and are not modelled; the values the code computes for
    them (winner announcements, kick lists) are returned as results.
  * `random.Random(seed).randint(0, n-1)` draw sequences are modelled by an
    explicit parameter `rand : seed -> poolSize -> drawIndex -> Int`; the
    source re-creates the generator from the session-fixed seed on every
    call of `__question_select`, so the draws of a call are a function of
    (seed, pool size, draw position) only.
  * Unbounded `while` loops are given explicit fuel and return `none` while
    the loop is still running (or when a raised exception aborts a method).
-/

namespace VkQuizBot

/-- Quiz mode, the `quiz_mode` field of `bot_config.json`; `BotCore.__data_check`
admits exactly the values `Normal`, `Blitz` and `Score`. -/
inductive QuizMode
  | normal
  | blitz
  | score
deriving DecidableEq, Repr

/-- Name of the question pool file that `QuizManager.__question_list_to_load`
refers to: `questions_list` or `blitz_questions_list` (modelled as an
inductive instead of the Python string). -/
inductive PoolName
  | questionsList
  | blitzQuestionsList
deriving DecidableEq, Repr

/-- The configuration fields of `bot_config.json` that the quiz core reads. -/
structure BotConfig where
  quiz_mode : QuizMode
  random_selection_for_quiz_questions : Bool
  ignore_save_state : Bool
  force_load_save_state : Bool
  seed : Option Nat
  time_on_quiz_round : Nat
deriving DecidableEq, Repr

/-- One entry of the active question pool; only the `score` field is read by
the embedded code paths (`current_question["score"]` in the handler). -/
structure Question where
  score : Int
deriving DecidableEq, Repr

/-- The `TempInfo` dataclass of `temp_info.py` (in-memory shared state). -/
structure TempInfo where
  members_vk_page_ids : List Nat := []
  admin_vk_pages_ids : List Nat := []
  members_answered_on_quiz_right : List Nat := []
  members_answered_on_quiz : List Nat := []
  members_scores : List (Nat × Int) := []
  get_chat_first_start : Bool := true
  start_function_first_start : Bool := true
  blitz_start : Bool := false
  current_id_of_latest_quiz_message : Nat := 0
deriving DecidableEq, Repr

/-- The content of the `data/temp_info.json` file that `UserManager` reads and
rewrites (`get_chat`, `kick_user`); the file roster is distinct from the
in-memory `TempInfo` dataclass. -/
structure FileTempInfo where
  members_vk_page_ids : List Nat := []
  admin_vk_pages_ids : List Nat := []
deriving DecidableEq, Repr

/-- The list pickled by `QuizManager._save_state_create`:
`[temp_info, question_list_to_load, already_used_question_numbers,
current_question_number, round_counter, time_wait]`. -/
structure Checkpoint where
  temp_info : TempInfo
  question_list_to_load : Option PoolName
  already_used_question_numbers : List Int
  current_question_number : Int
  round_counter : Nat
  time_wait : Nat
deriving DecidableEq, Repr

/-- The mutable session state shared between `BotCore`, `QuizManager` and the
handlers: `BotCore._answer_block`, `BotCore._temp_info`, the private fields of
`QuizManager`, the durable `dump/save_state.bin` content and the
`data/temp_info.json` content. -/
structure BotState where
  answer_block : Bool
  temp_info : TempInfo
  questions_list : List Question
  question_list_to_load : Option PoolName
  already_used_question_numbers : List Int
  crash_state : Bool
  current_question_number : Int
  round_counter : Nat
  time_wait : Nat
  seed : Nat
  dump_file : Option Checkpoint
  file_temp_info : FileTempInfo
  stop_event : Bool
deriving DecidableEq, Repr

/-- Python `d.get(k, dflt)` on the `members_scores` dict. -/
def dictGetD (d : List (Nat × Int)) (k : Nat) (dflt : Int) : Int :=
  match d.find? (fun p => p.1 = k) with
  | some p => p.2
  | none => dflt

/-- Python `d[k] = v` / `d.update({k: v})` on the `members_scores` dict:
updates the existing entry in place, otherwise appends (insertion order). -/
def dictInsert (d : List (Nat × Int)) (k : Nat) (v : Int) : List (Nat × Int) :=
  if (d.find? (fun p => p.1 = k)).isSome then
    d.map (fun p => if p.1 = k then (k, v) else p)
  else
    d ++ [(k, v)]

/-- Python list indexing `l[i]` with negative-index support; `none` stands
for an `IndexError`. -/
def pyGet {α : Type} (l : List α) (i : Int) : Option α :=
  if 0 ≤ i then l.get? i.toNat
  else if (-i).toNat ≤ l.length then l.get? (l.length - (-i).toNat) else none

/-- Payload of a callback-button event (`event_data["object"]["payload"]`):
either the score probe (the `score` key is present) or a real answer with a
correctness flag (the `answer` key). -/
inductive Payload
  | scoreProbe
  | answer (flag : Bool)
deriving DecidableEq, Repr

/-- An inbound callback event as read by `members_quiz_answers_handler`. -/
structure AnswerEvent where
  user_id : Nat
  event_id : Nat
  payload : Payload
deriving DecidableEq, Repr

/-- The reply/outcome of one `members_quiz_answers_handler` invocation,
keyed by the snackbar text the source sends (`admin_cannot_use_text`,
`score_template_text`, `answer_blocked_text`, `already_answered_text`,
`answer_got_text`); `fault` stands for a non-`HandlerException` exception
escaping to the `ErrorNotifier.notify` decorator. -/
inductive Outcome
  | adminCannotUse
  | scoreShown (score : Int)
  | answerBlockedMsg
  | alreadyAnswered
  | answerGot
  | fault
deriving DecidableEq, Repr

/-- Modelled from the spec: `QuizManager.get_current_question` is called by
`Handler.members_quiz_answers_handler` (handler.py line 331) but its
definition is missing from the sources; per the spec, `currentQuestionIndex`
is an "index into the active question pool" and the correctness flag is
applied as plus or minus the score of the current question, so the current
question is the pool entry at `currentQuestionIndex` (−1 before first
selection, hence no current question then). -/
def getCurrentQuestion (st : BotState) : Option Question :=
  if st.current_question_number < 0 then none
  else st.questions_list.get? st.current_question_number.toNat

/-- The body of `Handler.members_quiz_answers_handler` (handler.py lines
283–376): admin check, score-probe short cut, `answer_block` gate, duplicate
check, then the mode-specific accept path; every `HandlerException` outcome
leaves the state unchanged and is turned into a snackbar reply. -/
def membersQuizAnswersHandler (cfg : BotConfig) (st : BotState) (ev : AnswerEvent) :
    Outcome × BotState :=
  if ev.user_id ∈ st.temp_info.admin_vk_pages_ids then
    (Outcome.adminCannotUse, st)
  else
    match ev.payload with
    | Payload.scoreProbe =>
        (Outcome.scoreShown (dictGetD st.temp_info.members_scores ev.user_id 0), st)
    | Payload.answer flag =>
        if st.answer_block then
          (Outcome.answerBlockedMsg, st)
        else if ev.user_id ∈ st.temp_info.members_answered_on_quiz then
          (Outcome.alreadyAnswered, st)
        else if cfg.quiz_mode = QuizMode.score then
          match getCurrentQuestion st with
          | none => (Outcome.fault, st)
          | some q =>
              let delta : Int := if flag then q.score else -q.score
              let newScore := dictGetD st.temp_info.members_scores ev.user_id 0 + delta
              let t1 := { st.temp_info with
                          members_scores :=
                            dictInsert st.temp_info.members_scores ev.user_id newScore }
              let t2 := { t1 with
                          members_answered_on_quiz :=
                            t1.members_answered_on_quiz ++ [ev.user_id] }
              (Outcome.answerGot, { st with temp_info := t2 })
        else
          let t1 :=
            if flag then
              { st.temp_info with
                members_answered_on_quiz_right :=
                  st.temp_info.members_answered_on_quiz_right ++ [ev.user_id] }
            else st.temp_info
          let t2 := { t1 with
                      members_answered_on_quiz :=
                        t1.members_answered_on_quiz ++ [ev.user_id] }
          (Outcome.answerGot, { st with temp_info := t2 })

/-- Sequential processing of a list of inbound events, one handler invocation
per event (the shared lock serializes concurrent invocations). -/
def processEvents (cfg : BotConfig) (st : BotState) :
    List AnswerEvent → List Outcome × BotState
  | [] => ([], st)
  | ev :: evs =>
      let r := membersQuizAnswersHandler cfg st ev
      let rest := processEvents cfg r.2 evs
      (r.1 :: rest.1, rest.2)

/-- The body of `QuizManager.__save_state` (quiz_manager.py lines 134–162):
returns the pickled dump only when the dump file exists, `ignore_save_state`
is not set, and either a `.flag` file exists in `dump/` or
`force_load_save_state` is set; `ignore_save_state` is checked first and
overrides the flag/force condition. -/
def saveStateLoad (cfg : BotConfig) (dump_file : Option Checkpoint)
    (flag_exists : Bool) : Option Checkpoint :=
  match dump_file with
  | some dumped_data =>
      if cfg.ignore_save_state then none
      else if flag_exists || cfg.force_load_save_state then some dumped_data
      else none
  | none => none

/-- The state established by `QuizManager.__init__` (quiz_manager.py lines
89–123): seed from config or wall clock, then either the recovery branch
(fields restored from the dump, `crash_state = True`, `temp_info` replaced by
the dumped one) or the fresh branch (`round_counter = 1`,
`current_question_number = -1`, empty used list, `time_wait = 0`).
`answer_block` starts `True` (`BotCore.__init__`), `questions_list` starts
empty; `t0` and `ft0` are the `TempInfo` dataclass and `temp_info.json`
content present at startup, `wall_clock` the timestamp used when no seed is
configured. -/
def quizManagerInit (cfg : BotConfig) (dump_file : Option Checkpoint)
    (flag_exists : Bool) (wall_clock : Nat) (t0 : TempInfo) (ft0 : FileTempInfo) :
    BotState :=
  let seed := match cfg.seed with
              | some s => s
              | none => wall_clock
  match saveStateLoad cfg dump_file flag_exists with
  | some d =>
      { answer_block := true
        temp_info := d.temp_info
        questions_list := []
        question_list_to_load := d.question_list_to_load
        already_used_question_numbers := d.already_used_question_numbers
        crash_state := true
        current_question_number := d.current_question_number
        round_counter := d.round_counter
        time_wait := d.time_wait
        seed := seed
        dump_file := dump_file
        file_temp_info := ft0
        stop_event := false }
  | none =>
      { answer_block := true
        temp_info := t0
        questions_list := []
        question_list_to_load := none
        already_used_question_numbers := []
        crash_state := false
        current_question_number := -1
        round_counter := 1
        time_wait := 0
        seed := seed
        dump_file := dump_file
        file_temp_info := ft0
        stop_event := false }

/-- The `while not event.is_set()` draw loop of `QuizManager.__question_select`
(quiz_manager.py lines 215–220): repeatedly draw `rand_gen.randint(0, n-1)`
until the value is not in the used list; `draw k` is the k-th value the
freshly seeded generator produces, `fuel` bounds the iterations we observe
(`none` = still looping). -/
def findUnused (draw : Nat → Int) (used : List Int) : Nat → Nat → Option Int
  | 0, _ => none
  | fuel + 1, i =>
      if draw i ∈ used then findUnused draw used fuel (i + 1)
      else some (draw i)

/-- The body of `QuizManager.__question_select` (quiz_manager.py lines
196–246) with the stop event unset: the crash-resume branch returns `True`
immediately and only clears `crash_state`; otherwise, while the pool is not
exhausted, either the seeded random draw loop (`rand_gen = random.Random(
self.__seed)` is re-created from the session seed on every call, so its
draws are `rand st.seed poolSize k`) or the sequential pointer advance picks
the index, which is appended to the used list; on pool exhaustion the method
returns `False` (in Score mode after finishing the quiz and setting the stop
event; in other modes after waiting for the pool file to change, an external
effect). -/
def questionSelect (cfg : BotConfig) (rand : Nat → Nat → Nat → Int)
    (fuel : Nat) (st : BotState) : Option (Bool × BotState) :=
  if st.crash_state then
    some (true, { st with crash_state := false })
  else if st.already_used_question_numbers.length ≠ st.questions_list.length then
    if cfg.random_selection_for_quiz_questions then
      match findUnused (rand st.seed st.questions_list.length)
          st.already_used_question_numbers fuel 0 with
      | some i =>
          some (true, { st with
                        current_question_number := i
                        already_used_question_numbers :=
                          st.already_used_question_numbers ++ [i] })
      | none => none
    else
      let c :=
        if st.current_question_number < (st.questions_list.length : Int) - 1 then
          st.current_question_number + 1
        else st.current_question_number
      some (true, { st with
                    current_question_number := c
                    already_used_question_numbers :=
                      st.already_used_question_numbers ++ [c] })
  else
    if cfg.quiz_mode = QuizMode.score then
      some (false, { st with stop_event := true })
    else
      some (false, st)

/-- Result of `QuizManager.__finish_quiz` (quiz_manager.py lines 164–194):
in Score mode the winner is the first key of `members_scores` holding the
maximal value (`list(keys)[list(values).index(max)]`), an empty dict raises
`ValueError` from `max()` which the method catches and answers with the
no-winner message; in the other modes the method evaluates
`self.__parent.temp_info["Members_VK_page_IDs"][0]` (line 185), but
`temp_info` is the `TempInfo` dataclass of `temp_info.py`, which has no
`__getitem__`, so this raises `TypeError`, which the surrounding
`except ValueError` does not catch. -/
inductive FinishOutcome
  | winnerAnnounced (winner_id : Nat)
  | noWinnerAnnounced
  | typeFault
deriving DecidableEq, Repr

/-- The body of `QuizManager.__finish_quiz`; see `FinishOutcome`. -/
def finishQuiz (cfg : BotConfig) (st : BotState) : FinishOutcome :=
  if cfg.quiz_mode = QuizMode.score then
    match (st.temp_info.members_scores.map Prod.snd).max? with
    | none => FinishOutcome.noWinnerAnnounced
    | some mx =>
        match st.temp_info.members_scores.find? (fun p => p.2 = mx) with
        | some p => FinishOutcome.winnerAnnounced p.1
        | none => FinishOutcome.noWinnerAnnounced
  else
    FinishOutcome.typeFault

/-- Result of `QuizManager.__quiz_iteration_init`: `cont` models `return
True`, `stop f` models `return False` after a completed `__finish_quiz`, and
`typeFault` models a `TypeError` escaping the method (from the dataclass
subscript at quiz_manager.py line 185 or 327). -/
inductive IterInit
  | cont
  | stop (fin : FinishOutcome)
  | typeFault
deriving DecidableEq, Repr

/-- The code after the Blitz `match` in `QuizManager.__quiz_iteration_init`
(quiz_manager.py lines 326–333), reached in non-Blitz modes and in Blitz mode
when the member count matches neither case: for every non-Score mode it
evaluates `len(self.__parent.temp_info["Members_VK_page_IDs"])` (line 327) on
the `TempInfo` dataclass, raising `TypeError`; in Score mode it selects the
main question pool and returns `True`. -/
def quizIterationInitTail (cfg : BotConfig) (st : BotState) : IterInit × BotState :=
  if cfg.quiz_mode ≠ QuizMode.score then
    (IterInit.typeFault, st)
  else
    (IterInit.cont, { st with question_list_to_load := some PoolName.questionsList })

/-- The body of `QuizManager.__quiz_iteration_init` (quiz_manager.py lines
297–333): in Blitz mode, member count 2 runs the one-time blitz switch
(guarded by `blitz_start`) and selects the blitz pool; member count 1 runs
`__finish_quiz` and returns `False` (a `TypeError` raised there escapes);
any other count, and every other mode, falls through to
`quizIterationInitTail`. -/
def quizIterationInit (cfg : BotConfig) (st : BotState) : IterInit × BotState :=
  if cfg.quiz_mode = QuizMode.blitz then
    if st.temp_info.members_vk_page_ids.length = 2 then
      let st1 :=
        if ! st.temp_info.blitz_start then
          { st with
            round_counter := 1
            temp_info := { st.temp_info with blitz_start := true }
            already_used_question_numbers := [] }
        else st
      (IterInit.cont, { st1 with question_list_to_load := some PoolName.blitzQuestionsList })
    else if st.temp_info.members_vk_page_ids.length = 1 then
      match finishQuiz cfg st with
      | FinishOutcome.typeFault => (IterInit.typeFault, st)
      | f => (IterInit.stop f, st)
    else
      quizIterationInitTail cfg st
  else
    quizIterationInitTail cfg st

/-- Result of one `UserManager.kick_user` call: `ok` when both the file
rewrite and the remote `messages.removeChatUser` call succeed,
`removedLocallyRemoteFailed` when the remote call raises after the rewrite,
`valueFault` when `list.remove` raises `ValueError` because the id is not in
the member list of the file (the `ErrorNotifier.notify` decorator swallows the
exception in both failure cases). -/
inductive KickResult
  | ok
  | removedLocallyRemoteFailed
  | valueFault
deriving DecidableEq, Repr

/-- Modelled from the spec: `DataManager.rewrite_json` is called by
`UserManager.kick_user` and `UserManager.get_chat` but its definition is
missing from the sources; per the persisted-state contract of the spec it
serializes the given record to the `temp_info` JSON file, replacing the
previous content. -/
def rewriteJson (st : BotState) (t : FileTempInfo) : BotState :=
  { st with file_temp_info := t }

/-- The body of `UserManager.kick_user` (user_manager.py lines 147–168):
loads `temp_info.json`, removes the first occurrence of `member_id` from the
member list of the file (a missing id raises `ValueError`, aborting before the
rewrite), rewrites the file, and only then calls the remote
`messages.removeChatUser`; `remote_ok` tells whether that remote call
succeeds. -/
def kickUser (remote_ok : Bool) (st : BotState) (member_id : Nat) :
    KickResult × BotState :=
  if member_id ∈ st.file_temp_info.members_vk_page_ids then
    let st1 := rewriteJson st
      { st.file_temp_info with
        members_vk_page_ids := st.file_temp_info.members_vk_page_ids.erase member_id }
    if remote_ok then (KickResult.ok, st1)
    else (KickResult.removedLocallyRemoteFailed, st1)
  else
    (KickResult.valueFault, st)

/-- The kick list computed by `QuizManager.__end_of_time_handler`
(quiz_manager.py lines 411–412):
`list(set(members_vk_page_ids).difference(members_answered_on_quiz_right))`;
only membership matters (Python set order is unspecified), so the model
dedups the filtered member list. -/
def membersQueuedToKick (t : TempInfo) : List Nat :=
  (t.members_vk_page_ids.filter
    (fun x => decide (x ∉ t.members_answered_on_quiz_right))).dedup

/-- The body of `QuizManager.__end_of_time_handler` (quiz_manager.py lines
398–443): announce round end; in non-Score modes compute the kick list from
the in-memory `TempInfo` and kick each member (delegated to
`UserManager.kick_user`, which edits the `temp_info.json` roster); reveal the
right answer, which indexes `questions_list[current_question_number]`
(`none` models the `IndexError` aborting the method before the counter and
clears); then increment `round_counter`, reset `time_wait` and clear the two
per-round answer lists. No checkpoint is written here. Returns the kicked
ids together with the new state. -/
def endOfTimeHandler (cfg : BotConfig) (st : BotState) :
    Option (List Nat × BotState) :=
  let kicked :=
    if cfg.quiz_mode ≠ QuizMode.score then membersQueuedToKick st.temp_info else []
  let st1 := kicked.foldl (fun s m => (kickUser true s m).2) st
  match pyGet st1.questions_list st1.current_question_number with
  | none => none
  | some _ =>
      some (kicked,
        { st1 with
          round_counter := st1.round_counter + 1
          time_wait := 0
          temp_info := { st1.temp_info with
                         members_answered_on_quiz := []
                         members_answered_on_quiz_right := [] } })

/-- The round-close step of `QuizManager.quiz_mainloop` (quiz_manager.py lines
394–395): set `answer_block = True`, then run `__end_of_time_handler` on that
state. -/
def roundClose (cfg : BotConfig) (st : BotState) : Option (List Nat × BotState) :=
  endOfTimeHandler cfg { st with answer_block := true }

/-- The fields `QuizManager._save_state_create` pickles into
`dump/save_state.bin` (quiz_manager.py lines 335–345). -/
def checkpointOf (st : BotState) : Checkpoint :=
  { temp_info := st.temp_info
    question_list_to_load := st.question_list_to_load
    already_used_question_numbers := st.already_used_question_numbers
    current_question_number := st.current_question_number
    round_counter := st.round_counter
    time_wait := st.time_wait }

/-- The body of `QuizManager._save_state_create`: overwrite the dump file
with the current checkpoint fields. -/
def saveStateCreate (st : BotState) : BotState :=
  { st with dump_file := some (checkpointOf st) }

/-- The body of `BotCore.finalize` (bot_core.py lines 179–189): set the stop
event, join the quiz thread (external), then create the save state. -/
def finalize (st : BotState) : BotState :=
  saveStateCreate { st with stop_event := true }

/-- Whether an event carries a real answer payload (the `answer` key) rather
than the score probe. -/
def isRealAnswer (ev : AnswerEvent) : Bool :=
  match ev.payload with
  | Payload.answer _ => true
  | Payload.scoreProbe => false

/-- A neutral base state used by the concrete evaluation witnesses below. -/
def stBase : BotState :=
  { answer_block := false
    temp_info := {}
    questions_list := []
    question_list_to_load := none
    already_used_question_numbers := []
    crash_state := false
    current_question_number := -1
    round_counter := 1
    time_wait := 0
    seed := 0
    dump_file := none
    file_temp_info := {}
    stop_event := false }

/-- A configuration in Normal mode with sequential question selection. -/
def cfgNormalDemo : BotConfig :=
  { quiz_mode := QuizMode.normal
    random_selection_for_quiz_questions := false
    ignore_save_state := false
    force_load_save_state := false
    seed := some 0
    time_on_quiz_round := 1 }

/-- A configuration in Blitz mode. -/
def cfgBlitzDemo : BotConfig :=
  { cfgNormalDemo with quiz_mode := QuizMode.blitz }

/-- A configuration in Score mode. -/
def cfgScoreDemo : BotConfig :=
  { cfgNormalDemo with quiz_mode := QuizMode.score }

/-- A configuration with random question selection. -/
def cfgRandomDemo : BotConfig :=
  { cfgNormalDemo with random_selection_for_quiz_questions := true }

/-- A configuration with forced recovery. -/
def cfgForceDemo : BotConfig :=
  { cfgNormalDemo with force_load_save_state := true }

/-- A state in which participant 7 is already in the answered set of the
current round. -/
def stAnsweredDemo : BotState :=
  { stBase with temp_info := { members_answered_on_quiz := [7] } }

/-- A duplicate real-answer click of participant 7. -/
def evAnswerDemo : AnswerEvent :=
  { user_id := 7, event_id := 1, payload := Payload.answer true }

/-- A Score-mode state with one five-point question published and the answer
window open. -/
def scoreDemoState : BotState :=
  { stBase with
    questions_list := [{ score := 5 }]
    current_question_number := 0 }

/-- A correct-answer click of participant 7. -/
def evCorrectDemo : AnswerEvent :=
  { user_id := 7, event_id := 2, payload := Payload.answer true }

/-- A wrong-answer click of participant 7. -/
def evWrongDemo : AnswerEvent :=
  { user_id := 7, event_id := 3, payload := Payload.answer false }

/-- Score of participant 7 after: correct answer on a five-point question,
round close (which clears the per-round answer sets), window reopened,
correct answer on a five-point question again. -/
def scoreDemoTwiceCorrect : Option Int :=
  let s1 := (membersQuizAnswersHandler cfgScoreDemo scoreDemoState evCorrectDemo).2
  (roundClose cfgScoreDemo s1).map (fun p =>
    let s2 := { p.2 with answer_block := false }
    dictGetD (membersQuizAnswersHandler cfgScoreDemo s2 evCorrectDemo).2.temp_info.members_scores 7 0)

/-- Score of participant 7 after one wrong answer on a five-point question. -/
def scoreDemoWrongOnce : Int :=
  dictGetD (membersQuizAnswersHandler cfgScoreDemo scoreDemoState evWrongDemo).2.temp_info.members_scores 7 0

/-- A round-end state: members 5 and 6, admin 9, both members clicked, only 5
answered correctly; the file roster mirrors the members. -/
def stRoundDemo : BotState :=
  { stBase with
    questions_list := [{ score := 1 }]
    current_question_number := 0
    temp_info := { members_vk_page_ids := [5, 6]
                   admin_vk_pages_ids := [9]
                   members_answered_on_quiz := [5, 6]
                   members_answered_on_quiz_right := [5] }
    file_temp_info := { members_vk_page_ids := [5, 6] } }

/-- A round-end state with an empty roster and nothing pending, used to
observe the durable dump across a round close. -/
def stQuietDemo : BotState :=
  { stBase with
    questions_list := [{ score := 1 }]
    current_question_number := 0 }

/-- A checkpoint as in the resume example of the spec: round counter 3, used
indices 0, 4, 2, current question index 2. -/
def ckResumeDemo : Checkpoint :=
  { temp_info := {}
    question_list_to_load := some PoolName.questionsList
    already_used_question_numbers := [0, 4, 2]
    current_question_number := 2
    round_counter := 3
    time_wait := 30 }

/-- A minimal checkpoint for the recovery-decision witnesses. -/
def ckDemo : Checkpoint :=
  { temp_info := {}
    question_list_to_load := none
    already_used_question_numbers := []
    current_question_number := -1
    round_counter := 1
    time_wait := 0 }

/-- A concrete draw stream standing for the seeded generator in the
determinism witnesses. -/
def drawDemoRand : Nat → Nat → Nat → Int :=
  fun s n k => (((s + k) % (n + 1) : Nat) : Int)

/-- A state about to draw a random question: two questions, none used yet,
seed 1. -/
def stDrawDemo : BotState :=
  { stBase with
    questions_list := [{ score := 1 }, { score := 2 }]
    seed := 1 }

/-- A state whose roster holds the single member 42, at round initialization
(the end-to-end finish scenario of the spec). -/
def stFinishDemo : BotState :=
  { stBase with temp_info := { members_vk_page_ids := [42] } }

/-- A state whose roster holds exactly two members with blitz not yet
active, about to take the blitz switch. -/
def stBlitzSwitchDemo : BotState :=
  { stBase with
    current_question_number := 3
    already_used_question_numbers := [1, 3]
    round_counter := 5
    time_wait := 20
    temp_info := { members_vk_page_ids := [5, 6] } }

/-- A state whose local file roster holds the single member 7, used to
observe a kick whose remote removal call fails. -/
def stKickDemo : BotState :=
  { stBase with file_temp_info := { members_vk_page_ids := [7] } }

/-- The kick list the round close of `stRoundDemo` produces: member 6 clicked
but did not answer correctly. -/
def kickedRoundDemo : List Nat := [6]

/-- The state after the round close of `stRoundDemo`: 6 removed from the file
roster, round counter advanced, per-round sets cleared. -/
def stRoundFinal : BotState :=
  { stRoundDemo with
    answer_block := true
    file_temp_info := { members_vk_page_ids := [5] }
    round_counter := 2
    time_wait := 0
    temp_info := { stRoundDemo.temp_info with
                   members_answered_on_quiz := []
                   members_answered_on_quiz_right := [] } }

/-- A second pre-draw state agreeing with `stDrawDemo` on seed, pool size and
used history but differing elsewhere (as a state resumed from a crash
would). -/
def stDrawDemo2 : BotState :=
  { stDrawDemo with time_wait := 99, round_counter := 7 }

/-- Helper: a real-answer event of a participant already in the per-round
answered set is rejected with the already-answered snackbar and the state is
left untouched (handler.py lines 327–328 raise before any mutation). -/
theorem handler_already (cfg : BotConfig) (st : BotState) (ev : AnswerEvent) (flag : Bool)
    (hadm : ev.user_id ∉ st.temp_info.admin_vk_pages_ids)
    (hp : ev.payload = Payload.answer flag)
    (hb : st.answer_block = false)
    (hin : ev.user_id ∈ st.temp_info.members_answered_on_quiz) :
    membersQuizAnswersHandler cfg st ev = (Outcome.alreadyAnswered, st) := by
  simp [membersQuizAnswersHandler, hp, hadm, hb, hin]

/-- Helper: one handler invocation either leaves the per-round answered list
unchanged, or appends exactly the event sender, and appends only when the
sender was not in the list. -/
theorem handler_growth (cfg : BotConfig) (st : BotState) (ev : AnswerEvent) :
    (membersQuizAnswersHandler cfg st ev).2.temp_info.members_answered_on_quiz
        = st.temp_info.members_answered_on_quiz
    ∨ ((membersQuizAnswersHandler cfg st ev).2.temp_info.members_answered_on_quiz
          = st.temp_info.members_answered_on_quiz ++ [ev.user_id]
        ∧ ev.user_id ∉ st.temp_info.members_answered_on_quiz) := by
  by_cases hadm : ev.user_id ∈ st.temp_info.admin_vk_pages_ids
  · left; simp [membersQuizAnswersHandler, hadm]
  · cases hp : ev.payload with
    | scoreProbe => left; simp [membersQuizAnswersHandler, hadm, hp]
    | answer flag =>
      by_cases hb : st.answer_block
      · left; simp [membersQuizAnswersHandler, hadm, hp, hb]
      · by_cases hin : ev.user_id ∈ st.temp_info.members_answered_on_quiz
        · left; simp [membersQuizAnswersHandler, hadm, hp, hb, hin]
        · by_cases hm : cfg.quiz_mode = QuizMode.score
          · cases hq : getCurrentQuestion st with
            | none => left; simp [membersQuizAnswersHandler, hadm, hp, hb, hin, hm, hq]
            | some q =>
                right
                refine ⟨?_, hin⟩
                simp [membersQuizAnswersHandler, hadm, hp, hb, hin, hm, hq]
          · right
            refine ⟨?_, hin⟩
            cases flag <;> simp [membersQuizAnswersHandler, hadm, hp, hb, hin, hm]

/-- Helper: whenever the handler accepts an event (answer-got outcome), the
sender is in the per-round answered list afterwards. -/
theorem handler_accept_mem (cfg : BotConfig) (st : BotState) (ev : AnswerEvent)
    (h : (membersQuizAnswersHandler cfg st ev).1 = Outcome.answerGot) :
    ev.user_id ∈ (membersQuizAnswersHandler cfg st ev).2.temp_info.members_answered_on_quiz := by
  by_cases hadm : ev.user_id ∈ st.temp_info.admin_vk_pages_ids
  · simp [membersQuizAnswersHandler, hadm] at h
  · cases hp : ev.payload with
    | scoreProbe => simp [membersQuizAnswersHandler, hadm, hp] at h
    | answer flag =>
      by_cases hb : st.answer_block
      · simp [membersQuizAnswersHandler, hadm, hp, hb] at h
      · by_cases hin : ev.user_id ∈ st.temp_info.members_answered_on_quiz
        · simp [membersQuizAnswersHandler, hadm, hp, hb, hin] at h
        · by_cases hm : cfg.quiz_mode = QuizMode.score
          · cases hq : getCurrentQuestion st with
            | none => simp [membersQuizAnswersHandler, hadm, hp, hb, hin, hm, hq] at h
            | some q => simp [membersQuizAnswersHandler, hadm, hp, hb, hin, hm, hq]
          · cases flag <;> simp [membersQuizAnswersHandler, hadm, hp, hb, hin, hm]

/-- Helper: processing any sequence of real-answer events of a participant
already recorded in the per-round answered set yields the already-answered
outcome for every event and leaves the whole state unchanged. -/
theorem processEvents_all_already (cfg : BotConfig) (uid : Nat) :
    ∀ (evs : List AnswerEvent) (st : BotState),
      (∀ ev ∈ evs, ev.user_id = uid ∧ isRealAnswer ev = true) →
      uid ∉ st.temp_info.admin_vk_pages_ids → st.answer_block = false →
      uid ∈ st.temp_info.members_answered_on_quiz →
      processEvents cfg st evs = (evs.map fun _ => Outcome.alreadyAnswered, st)
  | [], _, _, _, _, _ => rfl
  | ev :: evs, st, hall, hadm, hb, hin => by
      obtain ⟨hu, hreal⟩ := hall ev (List.mem_cons_self _ _)
      obtain ⟨flag, hp⟩ : ∃ flag, ev.payload = Payload.answer flag := by
        cases hpp : ev.payload with
        | scoreProbe => rw [isRealAnswer, hpp] at hreal; exact absurd hreal (by simp)
        | answer f => exact ⟨f, rfl⟩
      have hh := handler_already cfg st ev flag (by rw [hu]; exact hadm) hp hb
        (by rw [hu]; exact hin)
      have ihh := processEvents_all_already cfg uid evs st
        (fun e he => hall e (List.mem_cons_of_mem _ he)) hadm hb hin
      simp [processEvents, hh, ihh]

/-- Helper: the per-round answered list counts any given participant at most
once, and processing further events preserves that bound. -/
theorem processEvents_count_le_one (cfg : BotConfig) (uid : Nat) :
    ∀ (evs : List AnswerEvent) (st : BotState),
      st.temp_info.members_answered_on_quiz.count uid ≤ 1 →
      (processEvents cfg st evs).2.temp_info.members_answered_on_quiz.count uid ≤ 1
  | [], _, h => h
  | ev :: evs, st, h => by
      have hstep : (membersQuizAnswersHandler cfg st ev).2.temp_info.members_answered_on_quiz.count uid ≤ 1 := by
        rcases handler_growth cfg st ev with hsame | ⟨happ, hnot⟩
        · rw [hsame]; exact h
        · rw [happ, List.count_append]
          by_cases huid : ev.user_id = uid
          · subst huid
            have h0 : st.temp_info.members_answered_on_quiz.count ev.user_id = 0 :=
              List.count_eq_zero.mpr hnot
            simp [h0]
          · have h1 : List.count uid [ev.user_id] = 0 :=
              List.count_eq_zero.mpr (by simp; exact fun hc => huid hc.symm)
            rw [h1]
            simpa using h
      have := processEvents_count_le_one cfg uid evs (membersQuizAnswersHandler cfg st ev).2 hstep
      simpa [processEvents] using this

/-- Claim C1: within one round, a participant is recorded in the answered
set at most once; once an accepted submission has recorded the participant,
every further real-answer submission of the same participant is rejected
with the already-answered outcome and leaves scores and the answer sets (the
whole state) unchanged; and an accepted submission does record its sender. -/
theorem claim_C1_duplicate_rejection (cfg : BotConfig) (st : BotState) (uid : Nat)
    (evs : List AnswerEvent)
    (hall : ∀ ev ∈ evs, ev.user_id = uid ∧ isRealAnswer ev = true) :
    (uid ∉ st.temp_info.admin_vk_pages_ids → st.answer_block = false →
        uid ∈ st.temp_info.members_answered_on_quiz →
        processEvents cfg st evs = (evs.map fun _ => Outcome.alreadyAnswered, st))
    ∧ (st.temp_info.members_answered_on_quiz.count uid ≤ 1 →
        (processEvents cfg st evs).2.temp_info.members_answered_on_quiz.count uid ≤ 1)
    ∧ (∀ ev : AnswerEvent,
        (membersQuizAnswersHandler cfg st ev).1 = Outcome.answerGot →
        ev.user_id ∈ (membersQuizAnswersHandler cfg st ev).2.temp_info.members_answered_on_quiz) :=
  ⟨fun hadm hb hin => processEvents_all_already cfg uid evs st hall hadm hb hin,
   fun h => processEvents_count_le_one cfg uid evs st h,
   fun ev h => handler_accept_mem cfg st ev h⟩

/-- Witness for C1: participant 7 is already recorded, two duplicate clicks
both come back as already-answered and the state is unchanged. -/
theorem claim_C1_witness :
    processEvents cfgNormalDemo stAnsweredDemo [evAnswerDemo, evAnswerDemo]
      = ([Outcome.alreadyAnswered, Outcome.alreadyAnswered], stAnsweredDemo) :=
  (claim_C1_duplicate_rejection cfgNormalDemo stAnsweredDemo 7 [evAnswerDemo, evAnswerDemo]
    (by decide)).1 (by decide) rfl (by decide)

/-- Helper: membership in the computed kick list is exactly membership in the
member list minus the answered-correctly list. -/
theorem mem_membersQueuedToKick (t : TempInfo) (x : Nat) :
    x ∈ membersQueuedToKick t ↔
      x ∈ t.members_vk_page_ids ∧ x ∉ t.members_answered_on_quiz_right := by
  simp [membersQueuedToKick, List.mem_dedup, List.mem_filter]

/-- Helper: a completed round close kicks exactly the set-difference list of
the state at the instant `answer_block` was set, and nothing in Score mode. -/
theorem roundClose_kicked (cfg : BotConfig) (st : BotState) (kicked : List Nat)
    (st' : BotState) (h : roundClose cfg st = some (kicked, st')) :
    kicked = if cfg.quiz_mode ≠ QuizMode.score then membersQueuedToKick st.temp_info
             else [] := by
  simp only [roundClose, endOfTimeHandler] at h
  split at h
  · exact absurd h (by simp)
  · simp only [Option.some.injEq, Prod.mk.injEq] at h
    exact h.1.symm

/-- Claim C2: at a completed round close in a non-Score mode, the kicked set
is exactly the roster member set minus the answered-correctly set, both as
they stand when `answer_block` transitions to true; admins (disjoint from the
member list by roster collection) are never kicked; in Score mode nobody is
kicked. -/
theorem claim_C2_eliminated_set (cfg : BotConfig) (st : BotState) (kicked : List Nat)
    (st' : BotState) (h : roundClose cfg st = some (kicked, st'))
    (hdisj : ∀ a ∈ st.temp_info.admin_vk_pages_ids, a ∉ st.temp_info.members_vk_page_ids) :
    (cfg.quiz_mode ≠ QuizMode.score →
        ∀ x, x ∈ kicked ↔
          x ∈ st.temp_info.members_vk_page_ids
            ∧ x ∉ st.temp_info.members_answered_on_quiz_right)
    ∧ (∀ a ∈ st.temp_info.admin_vk_pages_ids, a ∉ kicked)
    ∧ (cfg.quiz_mode = QuizMode.score → kicked = []) := by
  have hk := roundClose_kicked cfg st kicked st' h
  by_cases hm : cfg.quiz_mode = QuizMode.score
  · rw [if_neg (by simp [hm])] at hk
    subst hk
    exact ⟨fun hns => absurd hm hns, fun a _ hmem => by simp at hmem, fun _ => rfl⟩
  · rw [if_pos hm] at hk
    subst hk
    refine ⟨fun _ x => mem_membersQueuedToKick st.temp_info x, ?_, fun hs => absurd hs hm⟩
    intro a ha hmem
    exact (hdisj a ha) ((mem_membersQueuedToKick st.temp_info a).mp hmem).1

/-- Witness for C2: in the demo round, member 6 (clicked, wrong) is kicked
and matches the set difference, while admin 9 is not kicked. -/
theorem claim_C2_witness :
    (6 ∈ kickedRoundDemo ↔
        6 ∈ stRoundDemo.temp_info.members_vk_page_ids
          ∧ 6 ∉ stRoundDemo.temp_info.members_answered_on_quiz_right)
    ∧ 9 ∉ kickedRoundDemo := by
  have h := claim_C2_eliminated_set cfgNormalDemo stRoundDemo kickedRoundDemo stRoundFinal
    (by decide) (by decide)
  exact ⟨h.1 (by decide) 6, h.2.1 9 (by decide)⟩

/-- Claim C3: in Score mode an accepted real answer applies the correctness
flag as plus or minus the score of the current question to the running score
of the sender (starting from the default 0, negatives allowed) and always
appends the sender to the answered set; score probes never mutate any state;
concretely, two correct answers on a five-point question across two rounds
reach 10, and one wrong answer on a five-point question yields −5. -/
theorem claim_C3_score_accounting (cfg : BotConfig) (st : BotState) (ev : AnswerEvent)
    (q : Question) (flag : Bool)
    (hm : cfg.quiz_mode = QuizMode.score)
    (hadm : ev.user_id ∉ st.temp_info.admin_vk_pages_ids)
    (hp : ev.payload = Payload.answer flag)
    (hb : st.answer_block = false)
    (hdup : ev.user_id ∉ st.temp_info.members_answered_on_quiz)
    (hq : getCurrentQuestion st = some q) :
    membersQuizAnswersHandler cfg st ev =
      (Outcome.answerGot,
        { st with temp_info := { st.temp_info with
            members_scores := dictInsert st.temp_info.members_scores ev.user_id
              (dictGetD st.temp_info.members_scores ev.user_id 0
                + (if flag then q.score else -q.score))
            members_answered_on_quiz :=
              st.temp_info.members_answered_on_quiz ++ [ev.user_id] } })
    ∧ (∀ ev' : AnswerEvent, ev'.payload = Payload.scoreProbe →
        (membersQuizAnswersHandler cfg st ev').2 = st)
    ∧ scoreDemoTwiceCorrect = some 10
    ∧ scoreDemoWrongOnce = -5 := by
  refine ⟨?_, ?_, by decide, by decide⟩
  · cases flag <;> simp [membersQuizAnswersHandler, hm, hadm, hp, hb, hdup, hq]
  · intro ev' hp'
    by_cases hadm' : ev'.user_id ∈ st.temp_info.admin_vk_pages_ids
    · simp [membersQuizAnswersHandler, hadm']
    · simp [membersQuizAnswersHandler, hadm', hp']

/-- Witness for C3: participant 7 answers the five-point question correctly,
the score entry becomes 0 + 5 and 7 is recorded as answered. -/
theorem claim_C3_witness :
    membersQuizAnswersHandler cfgScoreDemo scoreDemoState evCorrectDemo =
      (Outcome.answerGot,
        { scoreDemoState with temp_info := { scoreDemoState.temp_info with
            members_scores := dictInsert scoreDemoState.temp_info.members_scores 7
              (dictGetD scoreDemoState.temp_info.members_scores 7 0
                + (if true then (5 : Int) else -(5 : Int)))
            members_answered_on_quiz :=
              scoreDemoState.temp_info.members_answered_on_quiz ++ [7] } }) :=
  (claim_C3_score_accounting cfgScoreDemo scoreDemoState evCorrectDemo { score := 5 } true
    rfl (by decide) rfl rfl (by decide) rfl).1

/-- Helper: a kick never touches the durable dump file. -/
theorem kickUser_dump (ro : Bool) (s : BotState) (m : Nat) :
    ((kickUser ro s m).2).dump_file = s.dump_file := by
  unfold kickUser rewriteJson
  split_ifs <;> rfl

/-- Helper: folding kicks over a member list never touches the durable dump
file. -/
theorem foldKick_dump (l : List Nat) : ∀ s : BotState,
    (l.foldl (fun s m => (kickUser true s m).2) s).dump_file = s.dump_file := by
  induction l with
  | nil => intro s; rfl
  | cons m l ih => intro s; rw [List.foldl_cons, ih, kickUser_dump]

/-- Helper: a completed round close leaves the durable dump file exactly as
it was (no checkpoint write anywhere in `__end_of_time_handler`). -/
theorem roundClose_dump (cfg : BotConfig) (st : BotState) (kicked : List Nat)
    (st' : BotState) (h : roundClose cfg st = some (kicked, st')) :
    st'.dump_file = st.dump_file := by
  simp only [roundClose, endOfTimeHandler] at h
  split at h
  · exact absurd h (by simp)
  · simp only [Option.some.injEq, Prod.mk.injEq] at h
    rw [← h.2]
    exact foldKick_dump _ _

/-- Counterexample for C4: a full round close (with one member kicked)
starting from a state with no stored checkpoint ends with still no stored
checkpoint — the round close persists nothing. -/
theorem claim_C4_counterexample :
    (roundClose cfgNormalDemo stRoundDemo).map (fun p => p.2.dump_file) = some none := by
  decide

/-- Claim C4 (amended): the checkpoint is persisted only at graceful
shutdown — `finalize` overwrites the dump with the current checkpoint
fields, while a completed round close leaves the dump exactly as it was. -/
theorem claim_C4_checkpoint_timing :
    (∀ (cfg : BotConfig) (st : BotState) (kicked : List Nat) (st' : BotState),
        roundClose cfg st = some (kicked, st') → st'.dump_file = st.dump_file)
    ∧ (∀ st : BotState, (finalize st).dump_file = some (checkpointOf st)) :=
  ⟨fun cfg st kicked st' h => roundClose_dump cfg st kicked st' h,
   fun _ => rfl⟩

/-- Witness for C4: the quiet demo round close keeps the empty dump, and
finalizing the base state stores its checkpoint. -/
theorem claim_C4_witness :
    ({ stQuietDemo with answer_block := true, round_counter := 2, time_wait := 0 }
        : BotState).dump_file = stQuietDemo.dump_file
    ∧ (finalize stBase).dump_file = some (checkpointOf stBase) :=
  ⟨claim_C4_checkpoint_timing.1 cfgNormalDemo stQuietDemo []
      { stQuietDemo with answer_block := true, round_counter := 2, time_wait := 0 }
      (by decide),
   claim_C4_checkpoint_timing.2 stBase⟩

/-- Claim C5: the recovery store yields a checkpoint exactly when the dump
file exists, a crash flag exists or forced loading is configured, and the
ignore option is not set (the ignore option overrides the others); whenever
it yields nothing, the fresh session starts with round counter 1, question
index −1, no used indices, zero elapsed time and no resume flag. -/
theorem claim_C5_recovery_decision (cfg : BotConfig) (dump : Option Checkpoint)
    (flag : Bool) (wall : Nat) (t0 : TempInfo) (ft0 : FileTempInfo) :
    (∀ d : Checkpoint,
        saveStateLoad cfg dump flag = some d ↔
          (dump = some d ∧ (flag = true ∨ cfg.force_load_save_state = true)
            ∧ cfg.ignore_save_state = false))
    ∧ (saveStateLoad cfg dump flag = none →
        (quizManagerInit cfg dump flag wall t0 ft0).round_counter = 1
        ∧ (quizManagerInit cfg dump flag wall t0 ft0).current_question_number = -1
        ∧ (quizManagerInit cfg dump flag wall t0 ft0).already_used_question_numbers = []
        ∧ (quizManagerInit cfg dump flag wall t0 ft0).time_wait = 0
        ∧ (quizManagerInit cfg dump flag wall t0 ft0).crash_state = false) := by
  constructor
  · intro d
    cases dump with
    | none => simp [saveStateLoad]
    | some d0 =>
      by_cases hig : cfg.ignore_save_state
      · simp [saveStateLoad, hig]
      · rw [Bool.not_eq_true] at hig
        simp only [saveStateLoad, hig, Bool.false_eq_true, if_false, Bool.or_eq_true,
          Option.some.injEq]
        split_ifs with hcond
        · exact ⟨fun hd => ⟨Option.some.inj hd, hcond, trivial⟩, fun hd => by rw [hd.1]⟩
        · exact ⟨fun hd => absurd hd (by simp), fun hd => absurd hd.2.1 hcond⟩
  · intro h
    simp [quizManagerInit, h]

/-- Witness for C5: forced loading with no crash flag still returns the
stored checkpoint. -/
theorem claim_C5_witness :
    saveStateLoad cfgForceDemo (some ckDemo) false = some ckDemo :=
  ((claim_C5_recovery_decision cfgForceDemo (some ckDemo) false 0 {} {}).1 ckDemo).mpr
    ⟨rfl, Or.inr rfl, rfl⟩

/-- Claim C6: after a successful checkpoint load the session starts with the
resume flag set and the checkpointed question index, used list, round counter
and elapsed time; the first question selection then returns immediately,
clearing only the resume flag (so the interrupted round continues with the
same question index), and the resume flag is false afterwards, so the replay
happens exactly once. -/
theorem claim_C6_resume_replay (cfg : BotConfig) (d : Checkpoint) (flag : Bool)
    (wall : Nat) (t0 : TempInfo) (ft0 : FileTempInfo)
    (rand : Nat → Nat → Nat → Int) (fuel : Nat) (st : BotState)
    (hst : st = quizManagerInit cfg (some d) flag wall t0 ft0)
    (hload : saveStateLoad cfg (some d) flag = some d) :
    st.crash_state = true
    ∧ questionSelect cfg rand fuel st = some (true, { st with crash_state := false })
    ∧ (∀ t : BotState, questionSelect cfg rand fuel st = some (true, t) →
        t.crash_state = false)
    ∧ st.current_question_number = d.current_question_number
    ∧ st.already_used_question_numbers = d.already_used_question_numbers
    ∧ st.round_counter = d.round_counter
    ∧ st.time_wait = d.time_wait := by
  have hcrash : st.crash_state = true := by rw [hst]; simp [quizManagerInit, hload]
  have hsel : questionSelect cfg rand fuel st = some (true, { st with crash_state := false }) := by
    simp [questionSelect, hcrash]
  refine ⟨hcrash, hsel, ?_, ?_, ?_, ?_, ?_⟩
  · intro t ht
    rw [hsel] at ht
    simp only [Option.some.injEq, Prod.mk.injEq] at ht
    rw [← ht.2]
  · rw [hst]; simp [quizManagerInit, hload]
  · rw [hst]; simp [quizManagerInit, hload]
  · rw [hst]; simp [quizManagerInit, hload]
  · rw [hst]; simp [quizManagerInit, hload]

/-- Witness for C6: resuming from the checkpoint with round counter 3, used
indices 0, 4, 2 and question index 2 replays without drawing and keeps the
checkpointed fields. -/
theorem claim_C6_witness :
    questionSelect cfgNormalDemo drawDemoRand 5
        (quizManagerInit cfgNormalDemo (some ckResumeDemo) true 0 {} {})
      = some (true, { quizManagerInit cfgNormalDemo (some ckResumeDemo) true 0 {} {} with
                      crash_state := false })
    ∧ (quizManagerInit cfgNormalDemo (some ckResumeDemo) true 0 {} {}).current_question_number = 2
    ∧ (quizManagerInit cfgNormalDemo (some ckResumeDemo) true 0 {} {}).already_used_question_numbers = [0, 4, 2]
    ∧ (quizManagerInit cfgNormalDemo (some ckResumeDemo) true 0 {} {}).round_counter = 3 := by
  have h := claim_C6_resume_replay cfgNormalDemo ckResumeDemo true 0 {} {} drawDemoRand 5
    (quizManagerInit cfgNormalDemo (some ckResumeDemo) true 0 {} {}) rfl rfl
  exact ⟨h.2.1, h.2.2.2.1, h.2.2.2.2.1, h.2.2.2.2.2.1⟩

/-- Helper: the retry-until-unused draw loop is deterministic — two runs over
the same draw stream and used list that both produce an index produce the
same index, independent of the fuel bound. -/
theorem findUnused_det (draw : Nat → Int) (used : List Int) :
    ∀ (f1 f2 i : Nat) (a b : Int),
      findUnused draw used f1 i = some a → findUnused draw used f2 i = some b → a = b := by
  intro f1
  induction f1 with
  | zero => intro f2 i a b h1 _; exact absurd h1 (by simp [findUnused])
  | succ f1 ih =>
    intro f2 i a b h1 h2
    cases f2 with
    | zero => exact absurd h2 (by simp [findUnused])
    | succ f2 =>
      by_cases hmem : draw i ∈ used
      · simp only [findUnused, if_pos hmem] at h1 h2
        exact ih f2 (i + 1) a b h1 h2
      · simp only [findUnused, if_neg hmem] at h1 h2
        rw [← Option.some.inj h1, ← Option.some.inj h2]

/-- Claim C7: with random selection, a successful question draw is a
deterministic function of the seed, the pool size and the used-index
history — two executions from states agreeing on those three (and otherwise
arbitrary, e.g. one of them freshly resumed from a crash) select the same
next index; the generator is re-created from the session-fixed seed on every
call, so the draws depend on nothing else. -/
theorem claim_C7_deterministic_draw (cfg : BotConfig) (rand : Nat → Nat → Nat → Int)
    (f1 f2 : Nat) (s1 s2 t1 t2 : BotState)
    (hr : cfg.random_selection_for_quiz_questions = true)
    (hc1 : s1.crash_state = false) (hc2 : s2.crash_state = false)
    (hseed : s1.seed = s2.seed)
    (hlen : s1.questions_list.length = s2.questions_list.length)
    (hused : s1.already_used_question_numbers = s2.already_used_question_numbers)
    (h1 : questionSelect cfg rand f1 s1 = some (true, t1))
    (h2 : questionSelect cfg rand f2 s2 = some (true, t2)) :
    t1.current_question_number = t2.current_question_number := by
  simp only [questionSelect, hc1, hc2, Bool.false_eq_true, if_false, hr, if_true] at h1 h2
  by_cases hex : s1.already_used_question_numbers.length ≠ s1.questions_list.length
  · rw [if_pos hex] at h1
    rw [if_pos (by rw [← hused, ← hlen]; exact hex)] at h2
    cases hf1 : findUnused (rand s1.seed s1.questions_list.length)
        s1.already_used_question_numbers f1 0 with
    | none => rw [hf1] at h1; exact absurd h1 (by simp)
    | some i1 =>
      rw [hf1] at h1
      cases hf2 : findUnused (rand s2.seed s2.questions_list.length)
          s2.already_used_question_numbers f2 0 with
      | none => rw [hf2] at h2; exact absurd h2 (by simp)
      | some i2 =>
        rw [hf2] at h2
        simp only [Option.some.injEq, Prod.mk.injEq] at h1 h2
        rw [← h1.2, ← h2.2]
        exact findUnused_det (rand s1.seed s1.questions_list.length)
          s1.already_used_question_numbers f1 f2 0 i1 i2 hf1
          (by rw [hseed, hlen, hused]; exact hf2)
  · rw [if_neg hex] at h1
    by_cases hm : cfg.quiz_mode = QuizMode.score <;> simp [hm] at h1

/-- Witness for C7: two states sharing seed 1, pool size 2 and an empty used
history but differing in round counter and elapsed time draw the same index
1 with different fuel bounds. -/
theorem claim_C7_witness :
    ({ stDrawDemo with
        current_question_number := 1
        already_used_question_numbers := [1] } : BotState).current_question_number
      = ({ stDrawDemo2 with
            current_question_number := 1
            already_used_question_numbers := [1] } : BotState).current_question_number :=
  claim_C7_deterministic_draw cfgRandomDemo drawDemoRand 3 7 stDrawDemo stDrawDemo2
    { stDrawDemo with current_question_number := 1, already_used_question_numbers := [1] }
    { stDrawDemo2 with current_question_number := 1, already_used_question_numbers := [1] }
    rfl rfl rfl rfl rfl rfl (by decide) (by decide)

/-- Claim C8 (code bug): with the roster reduced to the single member 42 at
round initialization in Blitz mode, `__quiz_iteration_init` calls
`__finish_quiz`, whose non-Score branch subscripts the `TempInfo` dataclass
(quiz_manager.py line 185) and raises `TypeError` instead of announcing the
winner, so the escaping fault — not a winner announcement — ends the round
loop; in Normal mode the dataclass subscript at line 327 faults likewise on
every initialization. -/
theorem claim_C8_finish_typefault :
    quizIterationInit cfgBlitzDemo stFinishDemo = (IterInit.typeFault, stFinishDemo)
    ∧ finishQuiz cfgBlitzDemo stFinishDemo = FinishOutcome.typeFault
    ∧ quizIterationInit cfgNormalDemo stFinishDemo = (IterInit.typeFault, stFinishDemo) := by
  refine ⟨by decide, by decide, by decide⟩

/-- Counterexample for C9: with member 7 alone in the file roster, a kick
whose remote removal call fails still leaves 7 removed from the local member
set — the local removal was committed before the remote call. -/
theorem claim_C9_counterexample :
    (kickUser false stKickDemo 7).1 = KickResult.removedLocallyRemoteFailed
    ∧ 7 ∉ (kickUser false stKickDemo 7).2.file_temp_info.members_vk_page_ids := by
  decide

/-- Claim C9 (amended): `kick_user` commits the local removal (file roster
rewritten with the first occurrence of the id erased) before invoking the
remote removal call, and a remote failure does not roll it back — the local
result state is identical to the success case; only when the id is absent
from the local roster does the call abort (on the `ValueError` of
`list.remove`) before the rewrite and the remote call, leaving the state
unchanged. -/
theorem claim_C9_kick_commit (remote_ok : Bool) (st : BotState) (m : Nat) :
    (m ∈ st.file_temp_info.members_vk_page_ids →
        (kickUser remote_ok st m).2 = rewriteJson st
          { st.file_temp_info with
            members_vk_page_ids := st.file_temp_info.members_vk_page_ids.erase m })
    ∧ (m ∉ st.file_temp_info.members_vk_page_ids →
        kickUser remote_ok st m = (KickResult.valueFault, st))
    ∧ (kickUser remote_ok st m).2 = (kickUser true st m).2 := by
  refine ⟨?_, ?_, ?_⟩
  · intro hm
    unfold kickUser
    rw [if_pos hm]
    cases remote_ok <;> rfl
  · intro hm
    unfold kickUser
    rw [if_neg hm]
  · unfold kickUser
    by_cases hm : m ∈ st.file_temp_info.members_vk_page_ids
    · rw [if_pos hm, if_pos hm]
      cases remote_ok <;> rfl
    · rw [if_neg hm, if_neg hm]

/-- Witness for C9 (amended): kicking the present member 7 with a succeeding
remote call commits the erase rewrite. -/
theorem claim_C9_witness :
    (kickUser true stKickDemo 7).2 = rewriteJson stKickDemo
      { stKickDemo.file_temp_info with
        members_vk_page_ids := stKickDemo.file_temp_info.members_vk_page_ids.erase 7 } :=
  (claim_C9_kick_commit true stKickDemo 7).1 (by decide)

/-- Claim C10: the blitz switch (Blitz mode, exactly two members, blitz not
yet active) mutates only the round counter (to 1), the blitz-active flag (to
true), the used-index list (cleared) and the active pool name (to the blitz
pool) — in particular the question index and the elapsed round time are
untouched — and because the flag now holds, re-running the initialization
performs no switch (only the pool name assignment), so the switch body runs
at most once per session. -/
theorem claim_C10_blitz_switch_frame (cfg : BotConfig) (st : BotState)
    (hm : cfg.quiz_mode = QuizMode.blitz)
    (hcount : st.temp_info.members_vk_page_ids.length = 2) :
    (st.temp_info.blitz_start = false →
        quizIterationInit cfg st =
          (IterInit.cont,
            { st with
              round_counter := 1
              temp_info := { st.temp_info with blitz_start := true }
              already_used_question_numbers := []
              question_list_to_load := some PoolName.blitzQuestionsList }))
    ∧ (st.temp_info.blitz_start = true →
        quizIterationInit cfg st =
          (IterInit.cont, { st with question_list_to_load := some PoolName.blitzQuestionsList }))
    ∧ (st.temp_info.blitz_start = false →
        quizIterationInit cfg (quizIterationInit cfg st).2 =
          (IterInit.cont,
            { (quizIterationInit cfg st).2 with
              question_list_to_load := some PoolName.blitzQuestionsList })) := by
  refine ⟨?_, ?_, ?_⟩
  · intro hbs
    simp [quizIterationInit, hm, hcount, hbs]
  · intro hbs
    simp [quizIterationInit, hm, hcount, hbs]
  · intro hbs
    simp [quizIterationInit, hm, hcount, hbs]

/-- Witness for C10: the demo switch resets the round counter, raises the
flag, clears the used list and selects the blitz pool, while the question
index 3 and the elapsed time 20 stay as they were. -/
theorem claim_C10_witness :
    quizIterationInit cfgBlitzDemo stBlitzSwitchDemo =
      (IterInit.cont,
        { stBlitzSwitchDemo with
          round_counter := 1
          temp_info := { stBlitzSwitchDemo.temp_info with blitz_start := true }
          already_used_question_numbers := []
          question_list_to_load := some PoolName.blitzQuestionsList }) :=
  (claim_C10_blitz_switch_frame cfgBlitzDemo stBlitzSwitchDemo rfl (by decide)).1 rfl

end VkQuizBot
